import Mathlib

/-!
Shallow embedding of the "Forest Health Goods API" backend (src/main.py).

Monetary values are Python floats in the source; here they are modelled as
exact rationals (ℚ), and Python's `round(x, 2)` (round-half-to-even) is
modelled exactly on ℚ by `round2`.  Document-store state is passed
explicitly: `none` models an unreachable store (`db is None` in the source),
`some s` a reachable store with contents `s`.  HTTP errors raised via
`HTTPException(status_code, detail)` are modelled by the `HTTPErr` structure
carried in `Except`.
-/

namespace ForestAPI

/-- Python's banker's rounding to the nearest integer, on exact rationals:
round half to even.  (`Rat.floor` is used rather than `⌊⌋` so that the
definition evaluates by kernel reduction; the two agree by
`Rat.floor_def`.) -/
def roundHalfEven (x : ℚ) : ℤ :=
  if x - (x.floor : ℚ) < 1/2 then x.floor
  else if 1/2 < x - (x.floor : ℚ) then x.floor + 1
  else if x.floor % 2 = 0 then x.floor else x.floor + 1

/-- Python's `round(x, 2)` on exact rationals. -/
def round2 (x : ℚ) : ℚ := (roundHalfEven (100 * x) : ℚ) / 100

theorem ratFloor_eq_floor (x : ℚ) : x.floor = ⌊x⌋ := by
  rw [Rat.floor_def, Rat.floor_def']

theorem roundHalfEven_intCast (n : ℤ) : roundHalfEven (n : ℚ) = n := by
  unfold roundHalfEven
  rw [ratFloor_eq_floor]
  simp

theorem roundHalfEven_add_two_mul (x : ℚ) (k : ℤ) :
    roundHalfEven (x + ((2 * k : ℤ) : ℚ)) = roundHalfEven x + 2 * k := by
  unfold roundHalfEven
  rw [ratFloor_eq_floor, ratFloor_eq_floor]
  have hfl : ⌊x + ((2 * k : ℤ) : ℚ)⌋ = ⌊x⌋ + 2 * k := Int.floor_add_int x (2 * k)
  rw [hfl]
  have hr : x + ((2 * k : ℤ) : ℚ) - ((⌊x⌋ + 2 * k : ℤ) : ℚ) = x - (⌊x⌋ : ℚ) := by
    push_cast; ring
  rw [hr]
  have hmod : (⌊x⌋ + 2 * k) % 2 = ⌊x⌋ % 2 := by omega
  rw [hmod]
  split_ifs <;> omega

/-- `round2` fixes exact multiples of `1/100`. -/
theorem round2_int_div (m : ℤ) : round2 ((m : ℚ) / 100) = (m : ℚ) / 100 := by
  unfold round2
  have h : (100 : ℚ) * ((m : ℚ) / 100) = (m : ℚ) := by
    field_simp
  rw [h, roundHalfEven_intCast]

/-- Adding an exact even-cent amount (an integer multiple of 2/100, e.g. the
5.00 shipping fee) commutes with `round2`. -/
theorem round2_add_two_mul_cent (x : ℚ) (k : ℤ) :
    round2 (x + ((2 * k : ℤ) : ℚ) / 100) = round2 x + ((2 * k : ℤ) : ℚ) / 100 := by
  unfold round2
  have h : (100 : ℚ) * (x + ((2 * k : ℤ) : ℚ) / 100) = 100 * x + ((2 * k : ℤ) : ℚ) := by
    field_simp; ring
  rw [h, roundHalfEven_add_two_mul]
  push_cast
  ring

theorem round2_add_five (x : ℚ) : round2 (x + 5) = round2 x + 5 := by
  have h := round2_add_two_mul_cent x 250
  norm_num at h
  exact h

/-- An `HTTPException(status_code, detail)` raised by a handler. -/
structure HTTPErr where
  status_code : ℕ
  detail : String
deriving DecidableEq, Repr

/-! ## Auth guard (src/main.py, `require_admin`) -/

/-- Python's `s.startswith(pre)`. -/
def pyStartsWith (s pre : String) : Bool :=
  List.isPrefixOf pre.toList s.toList

/-- Python's `s.split(" ", 1)[1]`: everything after the first space.
(`require_admin` only reaches it when `s` starts with `"Bearer "`, so a
space is always present; the no-space case is unreachable there.) -/
def splitAfterFirstSpace (s : String) : String :=
  match s.toList.dropWhile (fun c => c ≠ ' ') with
  | [] => ""
  | _ :: rest => String.mk rest

/-- `require_admin` from src/main.py.  The configured token
(`ADMIN_TOKEN`, env-overridable) is passed explicitly; `authorization` is
the optional `Authorization` header. -/
def require_admin (adminToken : String) (authorization : Option String) :
    Except HTTPErr Bool :=
  match authorization with
  | none => .error ⟨401, "Missing token"⟩
  | some s =>
    if s = "" || !(pyStartsWith s "Bearer ") then .error ⟨401, "Missing token"⟩
    else
      let token := splitAfterFirstSpace s
      if token ≠ adminToken then .error ⟨403, "Invalid token"⟩
      else .ok true

/-! ## Documents and the content service (src/main.py, `update_content`) -/

/-- A BSON-like field value, covering the value shapes this backend stores. -/
inductive CVal where
  | s (v : String)
  | q (v : ℚ)
  | b (v : Bool)
  | strs (v : List String)
  | objs (v : List (List (String × String)))
  | null
deriving DecidableEq, Repr

/-- A stored document: an ordered association of field names to values
(the store-native `_id` is kept outside, as the key of the collection). -/
abbrev Doc : Type := List (String × CVal)

/-- Field access on a document (first binding wins, as in BSON). -/
def lookupField : Doc → String → Option CVal
  | [], _ => none
  | (k, v) :: rest, key => if k = key then some v else lookupField rest key

/-- One `$set` entry: overwrite the field if present (BSON documents carry
each field name once), otherwise append it. -/
def setField : Doc → String → CVal → Doc
  | [], k, v => [(k, v)]
  | (k', v') :: rest, k, v =>
    if k' = k then (k, v) :: rest
    else (k', v') :: setField rest k v

/-- Mongo's `update_one(..., {"$set": updates})` applied to one document. -/
def applySet (d : Doc) (updates : List (String × CVal)) : Doc :=
  updates.foldl (fun acc kv => setField acc kv.1 kv.2) d

/-- The `UpdateContentRequest` pydantic model: every field optional. -/
structure UpdateContentRequest where
  hero_title : Option String := none
  hero_subtitle : Option String := none
  hero_cta_text : Option String := none
  hero_secondary_cta_text : Option String := none
  hero_badges : Option (List String) := none
  hero_image : Option String := none
  spline_url : Option String := none
  shop_title : Option String := none
  shop_subtitle : Option String := none
  trust_items : Option (List (List (String × String))) := none
  testimonials : Option (List (List (String × String))) := none
deriving DecidableEq, Repr

/-- One entry of `model_dump(exclude_none=True)`: present iff the field is set. -/
def optEntry (name : String) (v : Option CVal) : List (String × CVal) :=
  match v with
  | none => []
  | some x => [(name, x)]

/-- `payload.model_dump(exclude_none=True)` for `UpdateContentRequest`:
the non-null fields, in declaration order. -/
def UpdateContentRequest.dumpExcludeNone (p : UpdateContentRequest) :
    List (String × CVal) :=
  optEntry "hero_title" (p.hero_title.map .s) ++
  optEntry "hero_subtitle" (p.hero_subtitle.map .s) ++
  optEntry "hero_cta_text" (p.hero_cta_text.map .s) ++
  optEntry "hero_secondary_cta_text" (p.hero_secondary_cta_text.map .s) ++
  optEntry "hero_badges" (p.hero_badges.map .strs) ++
  optEntry "hero_image" (p.hero_image.map .s) ++
  optEntry "spline_url" (p.spline_url.map .s) ++
  optEntry "shop_title" (p.shop_title.map .s) ++
  optEntry "shop_subtitle" (p.shop_subtitle.map .s) ++
  optEntry "trust_items" (p.trust_items.map .objs) ++
  optEntry "testimonials" (p.testimonials.map .objs)

/-- `update_content` (PUT /api/content).  `db = none` models an unreachable
store; `some none` a reachable store whose `content` collection is empty
(`find_one({})` returns nothing); `some (some doc)` the stored singleton.
Returns the merged document that the handler re-fetches and returns. -/
def update_content (db : Option (Option Doc)) (payload : UpdateContentRequest) :
    Except HTTPErr Doc :=
  match db with
  | none => .error ⟨500, "Database not available"⟩
  | some none => .error ⟨404, "Content not found"⟩
  | some (some doc) => .ok (applySet doc payload.dumpExcludeNone)

/-! ## Catalog service (src/main.py, product/category update and delete) -/

/-- A hexadecimal digit, as `bson.ObjectId` accepts them. -/
def isHexChar (c : Char) : Bool :=
  c.isDigit || (('a' ≤ c) && (c ≤ 'f')) || (('A' ≤ c) && (c ≤ 'F'))

/-- Syntactic validity of a string as a BSON ObjectId: 24 hex characters. -/
def isValidObjectId (s : String) : Bool :=
  s.length == 24 && s.toList.all isHexChar

/-- Lower-casing of a string (bson normalises ObjectId hex this way). -/
def pyLower (s : String) : String :=
  String.mk (s.toList.map Char.toLower)

/-- `ObjectId(s)` in bson: fails on a syntactically invalid string, and
normalises the hex to lower case (its `str()` form). -/
def objectId? (s : String) : Option String :=
  if isValidObjectId s then some (pyLower s) else none

/-- A collection: documents keyed by their canonical (lower-case hex)
ObjectId string. -/
abbrev Store : Type := List (String × Doc)

/-- The `ProductIn` pydantic payload. -/
structure ProductIn where
  title : String
  description : Option String := none
  price : ℚ
  category : Option String := none
  image : Option String := none
  badge : Option String := none
  in_stock : Bool := true
deriving DecidableEq, Repr

/-- `payload.model_dump()` for `ProductIn` (optional fields dump as null). -/
def ProductIn.dump (p : ProductIn) : List (String × CVal) :=
  [("title", .s p.title),
   ("description", (p.description.map CVal.s).getD .null),
   ("price", .q p.price),
   ("category", (p.category.map CVal.s).getD .null),
   ("image", (p.image.map CVal.s).getD .null),
   ("badge", (p.badge.map CVal.s).getD .null),
   ("in_stock", .b p.in_stock)]

/-- The `CategoryIn` pydantic payload. -/
structure CategoryIn where
  name : String
  slug : String
  image : Option String := none
deriving DecidableEq, Repr

/-- `payload.model_dump()` for `CategoryIn`. -/
def CategoryIn.dump (c : CategoryIn) : List (String × CVal) :=
  [("name", .s c.name), ("slug", .s c.slug),
   ("image", (c.image.map CVal.s).getD .null)]

/-- `find_one({"_id": oid})` on a collection. -/
def findById : Store → String → Option Doc
  | [], _ => none
  | (k, d) :: rest, oid => if k = oid then some d else findById rest oid

/-- `update_one({"_id": oid}, {"$set": updates})` on a collection. -/
def updateById (store : Store) (oid : String) (updates : List (String × CVal)) :
    Store :=
  store.map (fun kv => if kv.1 = oid then (kv.1, applySet kv.2 updates) else kv)

/-- `update_product` (PUT /api/products/:id), after the admin guard. -/
def update_product (db : Option Store) (product_id : String) (payload : ProductIn) :
    Except HTTPErr Doc :=
  match db with
  | none => .error ⟨500, "Database not available"⟩
  | some store =>
    match objectId? product_id with
    | none => .error ⟨400, "Invalid product id"⟩
    | some oid =>
      match findById (updateById store oid payload.dump) oid with
      | none => .error ⟨404, "Product not found"⟩
      | some doc => .ok doc

/-- `delete_product` (DELETE /api/products/:id), after the admin guard.
Returns the collection after deletion. -/
def delete_product (db : Option Store) (product_id : String) :
    Except HTTPErr Store :=
  match db with
  | none => .error ⟨500, "Database not available"⟩
  | some store =>
    match objectId? product_id with
    | none => .error ⟨400, "Invalid product id"⟩
    | some oid =>
      if store.any (fun kv => kv.1 = oid) then
        .ok (store.filter (fun kv => kv.1 ≠ oid))
      else .error ⟨404, "Product not found"⟩

/-- `update_category` (PUT /api/categories/:id), after the admin guard. -/
def update_category (db : Option Store) (category_id : String)
    (payload : CategoryIn) : Except HTTPErr Doc :=
  match db with
  | none => .error ⟨500, "Database not available"⟩
  | some store =>
    match objectId? category_id with
    | none => .error ⟨400, "Invalid category id"⟩
    | some oid =>
      match findById (updateById store oid payload.dump) oid with
      | none => .error ⟨404, "Category not found"⟩
      | some doc => .ok doc

/-- `delete_category` (DELETE /api/categories/:id), after the admin guard. -/
def delete_category (db : Option Store) (category_id : String) :
    Except HTTPErr Store :=
  match db with
  | none => .error ⟨500, "Database not available"⟩
  | some store =>
    match objectId? category_id with
    | none => .error ⟨400, "Invalid category id"⟩
    | some oid =>
      if store.any (fun kv => kv.1 = oid) then
        .ok (store.filter (fun kv => kv.1 ≠ oid))
      else .error ⟨404, "Category not found"⟩

/-! ## Checkout service (src/main.py, `create_order`) -/

/-- A product document as `create_order` reads it: its canonical id string
(`str(doc["_id"])`, lower-case hex), and the two fields the handler accesses
with `.get` — `title` and `price` — which may be absent. -/
structure Product where
  id : String
  title : Option String := none
  price : Option ℚ := none
deriving DecidableEq, Repr

/-- A cart line from the request body (`CartItem`): product id reference and
a quantity validated to be ≥ 1. -/
structure CartItem where
  product_id : String
  quantity : ℕ := 1
deriving DecidableEq, Repr

/-- The `CustomerInfo` pydantic model, snapshotted into the order. -/
structure CustomerInfo where
  name : String
  email : String
  phone : Option String := none
  address : String
  city : String
  country : String
  postal_code : String
deriving DecidableEq, Repr

/-- The `CreateOrderRequest` body of POST /api/checkout. -/
structure CreateOrderRequest where
  items : List CartItem
  customer : CustomerInfo
  notes : Option String := none
deriving DecidableEq, Repr

/-- One entry of `items_summary`: the stored order line. -/
structure LineSummary where
  product_id : String
  title : Option String
  price : ℚ
  quantity : ℕ
  line_total : ℚ
deriving DecidableEq, Repr

/-- The `order_doc` persisted to the `order` collection. -/
structure Order where
  items : List LineSummary
  customer : CustomerInfo
  notes : Option String
  subtotal : ℚ
  shipping : ℚ
  total : ℚ
  status : String
deriving DecidableEq, Repr

/-- The handler's JSON response plus, for reasoning, the order document it
persisted (if the store was reachable). -/
structure CheckoutResult where
  order_id : Option String
  total : ℚ
  status : String
  persistedOrder : Option Order
deriving DecidableEq, Repr

/-- The product catalog as checkout sees it; `none` models `db is None`. -/
abbrev ProductDB : Type := Option (List Product)

/-- Dictionary `.get` on the `product_map` association list. -/
def dictGet (m : List (String × Product)) (key : String) : Option Product :=
  match m with
  | [] => none
  | (k, v) :: rest => if k = key then some v else dictGet rest key

/-- The batch-fetch phase of `create_order`: collect the syntactically valid
ObjectIds among the cart lines, query them in one `find`, and key each found
document by its canonical id string. -/
def mkProductMap (db : ProductDB) (items : List CartItem) :
    List (String × Product) :=
  let ids := items.filterMap (fun it => objectId? it.product_id)
  match db with
  | none => []
  | some prods =>
    if ids.isEmpty then []
    else (prods.filter (fun p => ids.contains p.id)).map (fun p => (p.id, p))

/-- Per-line product resolution: `product_map.get(...)`, falling back to an
individual `find_one({"_id": ObjectId(...)})` (which yields nothing when the
id is syntactically invalid or the store is unreachable). -/
def resolve (db : ProductDB) (pmap : List (String × Product)) (pid : String) :
    Option Product :=
  match dictGet pmap pid with
  | some p => some p
  | none =>
    match db with
    | none => none
    | some prods =>
      match objectId? pid with
      | none => none
      | some oid => prods.find? (fun p => p.id = oid)

/-- The pricing loop of `create_order`: resolves each line, reads the price
with `float(prod.get("price", 0))`, accumulates the unrounded running
subtotal, and builds `items_summary` (whose stored `line_total` is rounded
to 2 decimals).  Fails the whole checkout on the first unresolvable line. -/
def processItems (db : ProductDB) (pmap : List (String × Product)) :
    List CartItem → Except HTTPErr (List LineSummary × ℚ)
  | [] => .ok ([], 0)
  | it :: rest =>
    match resolve db pmap it.product_id with
    | none => .error ⟨400, "Product not found: " ++ it.product_id⟩
    | some prod =>
      let price := prod.price.getD 0
      let line_total := price * (it.quantity : ℚ)
      match processItems db pmap rest with
      | .error e => .error e
      | .ok (ls, s) =>
        .ok (⟨prod.id, prod.title, price, it.quantity, round2 line_total⟩ :: ls,
             line_total + s)

/-- `create_order` (POST /api/checkout).  `freshId` stands for the
store-generated id of the inserted order document (`create_document`). -/
def create_order (db : ProductDB) (freshId : String)
    (payload : CreateOrderRequest) : Except HTTPErr CheckoutResult :=
  if payload.items.isEmpty then .error ⟨400, "No items in order"⟩
  else
    match processItems db (mkProductMap db payload.items) payload.items with
    | .error e => .error e
    | .ok (items_summary, subtotal) =>
      .ok { order_id := db.map (fun _ => freshId)
            total := round2 (subtotal + (if subtotal < 50 then (5 : ℚ) else 0))
            status := "received"
            persistedOrder := db.map (fun _ =>
              { items := items_summary
                customer := payload.customer
                notes := payload.notes
                subtotal := round2 subtotal
                shipping := if subtotal < 50 then (5 : ℚ) else 0
                total := round2 (subtotal + (if subtotal < 50 then (5 : ℚ) else 0))
                status := "received" }) }

/-- The order documents a call persisted: none on failure, and on success
only what was written to a reachable store. -/
def ordersWritten (r : Except HTTPErr CheckoutResult) : List Order :=
  match r with
  | .error _ => []
  | .ok res => res.persistedOrder.toList

instance {ε α : Type} [DecidableEq ε] [DecidableEq α] : DecidableEq (Except ε α) :=
  fun a b =>
    match a, b with
    | .error e, .error f =>
      if h : e = f then .isTrue (by rw [h])
      else .isFalse (fun hh => by cases hh; exact h rfl)
    | .error _, .ok _ => .isFalse (fun hh => by cases hh)
    | .ok _, .error _ => .isFalse (fun hh => by cases hh)
    | .ok a, .ok b =>
      if h : a = b then .isTrue (by rw [h])
      else .isFalse (fun hh => by cases hh; exact h rfl)

/-! ## Concrete fixtures used to instantiate the theorems below -/

def sampleCustomer : CustomerInfo :=
  { name := "Ada", email := "ada@example.com", address := "1 Forest Way",
    city := "Portland", country := "US", postal_code := "97201" }

/-- A catalog product priced 24.99 (the seeded "Forest Greens" price). -/
def productA : Product :=
  { id := "aaaaaaaaaaaaaaaaaaaaaaaa", title := some "Forest Greens Superfood Blend",
    price := some (2499/100) }

def reqA : CreateOrderRequest :=
  { items := [⟨"aaaaaaaaaaaaaaaaaaaaaaaa", 2⟩], customer := sampleCustomer }

def ordA : Order :=
  { items := [⟨"aaaaaaaaaaaaaaaaaaaaaaaa", some "Forest Greens Superfood Blend",
               2499/100, 2, 2499/50⟩],
    customer := sampleCustomer, notes := none,
    subtotal := 2499/50, shipping := 5, total := 2749/50, status := "received" }

def resA : CheckoutResult :=
  { order_id := some "ord1", total := 2749/50, status := "received",
    persistedOrder := some ordA }

/-- A product priced 0.004: each line rounds to 0.00 but two lines sum to
0.008, which rounds to 0.01. -/
def productC : Product :=
  { id := "cccccccccccccccccccccccc", title := some "Penny Sweet",
    price := some (1/250) }

def reqC2 : CreateOrderRequest :=
  { items := [⟨"cccccccccccccccccccccccc", 1⟩, ⟨"cccccccccccccccccccccccc", 1⟩],
    customer := sampleCustomer }

def ordC2 : Order :=
  { items := [⟨"cccccccccccccccccccccccc", some "Penny Sweet", 1/250, 1, 0⟩,
              ⟨"cccccccccccccccccccccccc", some "Penny Sweet", 1/250, 1, 0⟩],
    customer := sampleCustomer, notes := none,
    subtotal := 1/100, shipping := 5, total := 501/100, status := "received" }

def resC2 : CheckoutResult :=
  { order_id := some "ord2", total := 501/100, status := "received",
    persistedOrder := some ordC2 }

/-- A product priced 49.996: the raw subtotal is below 50 (so shipping is
charged) but the stored subtotal rounds up to exactly 50.00. -/
def productD : Product :=
  { id := "dddddddddddddddddddddddd", title := some "Almost Fifty",
    price := some (12499/250) }

def reqC3 : CreateOrderRequest :=
  { items := [⟨"dddddddddddddddddddddddd", 1⟩], customer := sampleCustomer }

def ordC3 : Order :=
  { items := [⟨"dddddddddddddddddddddddd", some "Almost Fifty", 12499/250, 1, 50⟩],
    customer := sampleCustomer, notes := none,
    subtotal := 50, shipping := 5, total := 55, status := "received" }

def resC3 : CheckoutResult :=
  { order_id := some "ord3", total := 55, status := "received",
    persistedOrder := some ordC3 }

def reqEmpty : CreateOrderRequest := { items := [], customer := sampleCustomer }

/-- A product document with no `price` field. -/
def productN : Product :=
  { id := "bbbbbbbbbbbbbbbbbbbbbbbb", title := some "Unpriced Tea", price := none }

def itemN : CartItem := ⟨"bbbbbbbbbbbbbbbbbbbbbbbb", 3⟩

/-- A stored content document for the merge round-trip. -/
def docC8 : Doc :=
  [("hero_title", .s "Wellness from the Forest"),
   ("hero_subtitle", .s "Pure, eco-friendly goods crafted with care."),
   ("shop_title", .s "Shop popular picks"),
   ("hero_badges", .strs ["organic", "plastic-free"])]

/-- A partial update setting only `hero_title`. -/
def patchC8 : UpdateContentRequest := { hero_title := some "New Headline" }

/-- A cart line whose product id is syntactically valid but stored nowhere. -/
def reqC5 : CreateOrderRequest :=
  { items := [⟨"deadbeefdeadbeefdeadbeef", 1⟩], customer := sampleCustomer }

/-- `docC8` after merging `patchC8`: only `hero_title` changed. -/
def mergedC8 : Doc :=
  [("hero_title", .s "New Headline"),
   ("hero_subtitle", .s "Pure, eco-friendly goods crafted with care."),
   ("shop_title", .s "Shop popular picks"),
   ("hero_badges", .strs ["organic", "plastic-free"])]

/-! ## Helper lemmas -/

attribute [local semireducible] Rat.add Rat.sub Rat.mul Rat.inv Rat.ofScientific

theorem round2_zero : round2 0 = 0 := by
  unfold round2
  rw [mul_zero, show (0 : ℚ) = ((0 : ℤ) : ℚ) by norm_num, roundHalfEven_intCast]
  norm_num

theorem round2_round2 (x : ℚ) : round2 (round2 x) = round2 x :=
  round2_int_div (roundHalfEven (100 * x))

theorem round2_round2_add_five (x : ℚ) : round2 (round2 x + 5) = round2 x + 5 := by
  have h : round2 x + 5 = ((roundHalfEven (100 * x) + 500 : ℤ) : ℚ) / 100 := by
    unfold round2; push_cast; ring
  rw [h, round2_int_div]

/-- What the pricing loop guarantees about a successful pass: the running
subtotal is the unrounded sum of `price × quantity` over the produced lines,
and each stored `line_total` is the per-line rounded product. -/
theorem processItems_spec (db : ProductDB) (pmap : List (String × Product)) :
    ∀ (items : List CartItem) (ls : List LineSummary) (s : ℚ),
      processItems db pmap items = .ok (ls, s) →
      s = (ls.map (fun l => l.price * (l.quantity : ℚ))).sum ∧
      ls.map (fun l => l.line_total) =
        ls.map (fun l => round2 (l.price * (l.quantity : ℚ))) := by
  intro items
  induction items with
  | nil =>
    intro ls s h
    simp only [processItems, Except.ok.injEq, Prod.mk.injEq] at h
    obtain ⟨h1, h2⟩ := h
    subst h1; subst h2
    simp
  | cons it rest ih =>
    intro ls s h
    simp only [processItems] at h
    cases hres : resolve db pmap it.product_id with
    | none => rw [hres] at h; simp at h
    | some prod =>
      rw [hres] at h
      cases hrec : processItems db pmap rest with
      | error e => rw [hrec] at h; simp at h
      | ok pr =>
        obtain ⟨ls', s'⟩ := pr
        rw [hrec] at h
        simp only [Except.ok.injEq, Prod.mk.injEq] at h
        obtain ⟨hls, hs⟩ := h
        obtain ⟨ihs, ihl⟩ := ih ls' s' hrec
        subst hls; subst hs
        constructor
        · simp only [List.map_cons, List.sum_cons]
          rw [← ihs]
        · simp only [List.map_cons]
          rw [ihl]

/-- The pricing loop fails at the first unresolvable cart line. -/
theorem processItems_first_unresolvable (db : ProductDB)
    (pmap : List (String × Product)) :
    ∀ (items : List CartItem) (bad : CartItem),
      items.find? (fun it => (resolve db pmap it.product_id).isNone) = some bad →
      processItems db pmap items =
        .error ⟨400, "Product not found: " ++ bad.product_id⟩ := by
  intro items
  induction items with
  | nil => intro bad h; simp at h
  | cons it rest ih =>
    intro bad h
    cases hres : resolve db pmap it.product_id with
    | none =>
      rw [List.find?_cons_of_pos _ (by simp [hres])] at h
      injection h with h
      subst h
      simp [processItems, hres]
    | some prod =>
      rw [List.find?_cons_of_neg _ (by simp [hres])] at h
      simp only [processItems, hres, ih bad h]

/-- Inversion of a successful `create_order` call: the persisted order's
fields in terms of the pricing loop's raw subtotal. -/
theorem create_order_ok_inv (db : ProductDB) (fid : String)
    (p : CreateOrderRequest) (r : CheckoutResult) (o : Order)
    (h : create_order db fid p = .ok r) (ho : r.persistedOrder = some o) :
    ∃ ls s, processItems db (mkProductMap db p.items) p.items = .ok (ls, s) ∧
      o.items = ls ∧ o.subtotal = round2 s ∧
      o.shipping = (if s < 50 then (5 : ℚ) else 0) ∧
      o.total = round2 (s + (if s < 50 then (5 : ℚ) else 0)) ∧
      o.status = "received" := by
  unfold create_order at h
  by_cases he : p.items.isEmpty
  · rw [if_pos he] at h; cases h
  · rw [if_neg he] at h
    cases hpi : processItems db (mkProductMap db p.items) p.items with
    | error e => rw [hpi] at h; cases h
    | ok pr =>
      obtain ⟨ls, s⟩ := pr
      rw [hpi] at h
      injection h with h
      subst h
      cases db with
      | none => cases ho
      | some prods =>
        injection ho with ho
        subst ho
        exact ⟨ls, s, rfl, rfl, rfl, rfl, rfl, rfl⟩

theorem lookupField_setField_self (d : Doc) (k : String) (v : CVal) :
    lookupField (setField d k v) k = some v := by
  induction d with
  | nil => simp [setField, lookupField]
  | cons kv rest ih =>
    obtain ⟨k', v'⟩ := kv
    by_cases h : k' = k
    · simp [setField, lookupField, h]
    · simp [setField, lookupField, h, ih]

theorem lookupField_setField_other (d : Doc) (k k2 : String) (v : CVal)
    (h : k ≠ k2) : lookupField (setField d k2 v) k = lookupField d k := by
  induction d with
  | nil => simp [setField, lookupField, Ne.symm h]
  | cons kv rest ih =>
    obtain ⟨k', v'⟩ := kv
    by_cases h' : k' = k2
    · subst h'
      simp [setField, lookupField, Ne.symm h]
    · by_cases h'' : k' = k
      · simp [setField, lookupField, h', h'', h]
      · simp [setField, lookupField, h', h'', ih]

theorem lookupField_applySet_of_not_mem (us : List (String × CVal)) :
    ∀ (d : Doc) (k : String), k ∉ us.map Prod.fst →
      lookupField (applySet d us) k = lookupField d k := by
  induction us with
  | nil => intro d k _; rfl
  | cons kv rest ih =>
    intro d k h
    simp only [List.map_cons, List.mem_cons] at h
    push_neg at h
    rw [show applySet d (kv :: rest) = applySet (setField d kv.1 kv.2) rest from rfl]
    rw [ih _ k h.2, lookupField_setField_other _ _ _ _ h.1]

theorem lookupField_applySet_of_mem (us : List (String × CVal)) :
    ∀ (d : Doc) (k : String) (v : CVal), (us.map Prod.fst).Nodup →
      (k, v) ∈ us → lookupField (applySet d us) k = some v := by
  induction us with
  | nil => intro d k v _ h; cases h
  | cons kv rest ih =>
    intro d k v hnd h
    simp only [List.map_cons, List.nodup_cons] at hnd
    rw [show applySet d (kv :: rest) = applySet (setField d kv.1 kv.2) rest from rfl]
    rcases List.mem_cons.mp h with heq | hmem
    · subst heq
      have hnm : k ∉ rest.map Prod.fst := hnd.1
      rw [lookupField_applySet_of_not_mem rest _ k hnm,
        lookupField_setField_self]
    · exact ih _ k v hnd.2 hmem

theorem optEntry_keys (n : String) (v : Option CVal) :
    ((optEntry n v).map Prod.fst).Sublist [n] := by
  cases v <;> simp [optEntry]

theorem dump_keys_sublist (p : UpdateContentRequest) :
    (p.dumpExcludeNone.map Prod.fst).Sublist
      ["hero_title", "hero_subtitle", "hero_cta_text", "hero_secondary_cta_text",
       "hero_badges", "hero_image", "spline_url", "shop_title", "shop_subtitle",
       "trust_items", "testimonials"] := by
  simp only [UpdateContentRequest.dumpExcludeNone, List.map_append]
  exact ((((((((((optEntry_keys _ _).append (optEntry_keys _ _)).append
    (optEntry_keys _ _)).append (optEntry_keys _ _)).append
    (optEntry_keys _ _)).append (optEntry_keys _ _)).append
    (optEntry_keys _ _)).append (optEntry_keys _ _)).append
    (optEntry_keys _ _)).append (optEntry_keys _ _)).append
    (optEntry_keys _ _)

theorem dump_keys_nodup (p : UpdateContentRequest) :
    (p.dumpExcludeNone.map Prod.fst).Nodup :=
  List.Nodup.sublist (dump_keys_sublist p) (by decide)

theorem findById_updateById (store : Store) (oid : String)
    (us : List (String × CVal)) :
    findById (updateById store oid us) oid =
      (findById store oid).map (fun d => applySet d us) := by
  induction store with
  | nil => rfl
  | cons kv rest ih =>
    obtain ⟨k, d⟩ := kv
    show findById
        ((if k = oid then (k, applySet d us) else (k, d)) :: updateById rest oid us)
        oid =
      (if k = oid then some d else findById rest oid).map (fun d => applySet d us)
    by_cases h : k = oid
    · rw [if_pos h, if_pos h]
      subst h
      simp [findById]
    · rw [if_neg h, if_neg h]
      simp [findById, h, ih]

theorem any_key_eq_false_of_findById_none (store : Store) (oid : String)
    (h : findById store oid = none) :
    store.any (fun kv => kv.1 = oid) = false := by
  induction store with
  | nil => rfl
  | cons kv rest ih =>
    obtain ⟨k, d⟩ := kv
    simp only [findById] at h
    by_cases hk : k = oid
    · rw [if_pos hk] at h; cases h
    · rw [if_neg hk] at h
      simp [List.any_cons, hk, ih h]

/-! ## Claim theorems -/

/-- C1: for every successful checkout, the persisted Order's `total` equals
`round(subtotal + shipping, 2)` computed from the stored `subtotal` and
`shipping` of that same record. -/
theorem create_order_total_eq_round_subtotal_add_shipping
    (db : ProductDB) (fid : String) (p : CreateOrderRequest)
    (r : CheckoutResult) (o : Order)
    (h : create_order db fid p = .ok r) (ho : r.persistedOrder = some o) :
    o.total = round2 (o.subtotal + o.shipping) := by
  obtain ⟨ls, s, hpi, hitems, hsub, hship, htot, hstat⟩ :=
    create_order_ok_inv db fid p r o h ho
  by_cases hlt : s < 50
  · rw [htot, hsub, hship, if_pos hlt, round2_add_five, round2_round2_add_five]
  · rw [htot, hsub, hship, if_neg hlt, add_zero, add_zero, round2_round2]

/-- C1 witness: the relation checked on a concrete successful checkout. -/
theorem create_order_total_eq_round_subtotal_add_shipping_witness :
    ordA.total = round2 (ordA.subtotal + ordA.shipping) :=
  create_order_total_eq_round_subtotal_add_shipping (some [productA]) "ord1"
    reqA resA ordA (by decide) (by decide)

/-- C2 counterexample: two 0.004-priced lines each round to a stored
line_total of 0.00, yet the persisted subtotal is 0.01, because the code
rounds the sum of unrounded line totals, not the sum of the rounded ones. -/
theorem create_order_per_line_rounding_counterexample :
    create_order (some [productC]) "ord2" reqC2 = .ok resC2 ∧
    resC2.persistedOrder = some ordC2 ∧
    ordC2.subtotal ≠
      round2 ((ordC2.items.map (fun l => round2 (l.price * (l.quantity : ℚ)))).sum) :=
  ⟨by decide, by decide, by decide⟩

/-- C2 (amended): the persisted subtotal is the 2-decimal rounding of the sum
of the unrounded `price × quantity` line totals; only the stored per-line
`line_total` values are rounded per line. -/
theorem create_order_subtotal_rounds_unrounded_sum
    (db : ProductDB) (fid : String) (p : CreateOrderRequest)
    (r : CheckoutResult) (o : Order)
    (h : create_order db fid p = .ok r) (ho : r.persistedOrder = some o) :
    o.subtotal = round2 ((o.items.map (fun l => l.price * (l.quantity : ℚ))).sum) ∧
    o.items.map (fun l => l.line_total) =
      o.items.map (fun l => round2 (l.price * (l.quantity : ℚ))) := by
  obtain ⟨ls, s, hpi, hitems, hsub, _, _, _⟩ := create_order_ok_inv db fid p r o h ho
  obtain ⟨hs, hl⟩ := processItems_spec db (mkProductMap db p.items) p.items ls s hpi
  rw [hitems, hsub, ← hs]
  exact ⟨rfl, hl⟩

/-- C2 witness: the amended subtotal law on the concrete two-line checkout. -/
theorem create_order_subtotal_rounds_unrounded_sum_witness :
    ordC2.subtotal =
      round2 ((ordC2.items.map (fun l => l.price * (l.quantity : ℚ))).sum) ∧
    ordC2.items.map (fun l => l.line_total) =
      ordC2.items.map (fun l => round2 (l.price * (l.quantity : ℚ))) :=
  create_order_subtotal_rounds_unrounded_sum (some [productC]) "ord2"
    reqC2 resC2 ordC2 (by decide) (by decide)

/-- C3 counterexample: a single 49.996 line stores subtotal 50.00 (≥ 50.00)
yet shipping 5.00, because the threshold is tested on the unrounded
subtotal (49.996 < 50). -/
theorem create_order_stored_subtotal_threshold_counterexample :
    create_order (some [productD]) "ord3" reqC3 = .ok resC3 ∧
    resC3.persistedOrder = some ordC3 ∧
    (50 : ℚ) ≤ ordC3.subtotal ∧ ordC3.shipping ≠ 0 :=
  ⟨by decide, by decide, by decide, by decide⟩

/-- C3 (amended): shipping is 5.00 exactly when the unrounded sum of
`price × quantity` over the order's lines is below 50.00, and 0.00
otherwise; the stored (rounded) subtotal is not what is thresholded. -/
theorem create_order_shipping_decided_by_raw_subtotal
    (db : ProductDB) (fid : String) (p : CreateOrderRequest)
    (r : CheckoutResult) (o : Order)
    (h : create_order db fid p = .ok r) (ho : r.persistedOrder = some o) :
    o.shipping =
      (if (o.items.map (fun l => l.price * (l.quantity : ℚ))).sum < 50
        then (5 : ℚ) else 0) := by
  obtain ⟨ls, s, hpi, hitems, _, hship, _, _⟩ := create_order_ok_inv db fid p r o h ho
  have hs := (processItems_spec db (mkProductMap db p.items) p.items ls s hpi).1
  rw [hitems, ← hs, hship]

/-- C3 witness: the amended shipping law on the concrete 49.996 checkout. -/
theorem create_order_shipping_decided_by_raw_subtotal_witness :
    ordC3.shipping =
      (if (ordC3.items.map (fun l => l.price * (l.quantity : ℚ))).sum < 50
        then (5 : ℚ) else 0) :=
  create_order_shipping_decided_by_raw_subtotal (some [productD]) "ord3"
    reqC3 resC3 ordC3 (by decide) (by decide)

/-- C4: a checkout whose item list is empty fails with the 400 "No items in
order" condition and persists no order document. -/
theorem create_order_empty_cart_rejected
    (db : ProductDB) (fid : String) (p : CreateOrderRequest) (h : p.items = []) :
    create_order db fid p = .error ⟨400, "No items in order"⟩ ∧
    ordersWritten (create_order db fid p) = [] := by
  have he : create_order db fid p = .error ⟨400, "No items in order"⟩ := by
    unfold create_order
    rw [if_pos (by rw [h]; rfl)]
  exact ⟨he, by rw [he]; rfl⟩

/-- C4 witness: an empty cart against a reachable (empty) store. -/
theorem create_order_empty_cart_rejected_witness :
    create_order (some []) "ord4" reqEmpty = .error ⟨400, "No items in order"⟩ ∧
    ordersWritten (create_order (some []) "ord4" reqEmpty) = [] :=
  create_order_empty_cart_rejected (some []) "ord4" reqEmpty (by decide)

/-- C5: if some cart line's product id resolves neither through the batch
map nor the individual fetch (the first such line being `bad`), the whole
checkout fails with 400 "Product not found: <id>" naming that id, and no
order document is persisted. -/
theorem create_order_unresolvable_product_rejected
    (db : ProductDB) (fid : String) (p : CreateOrderRequest) (bad : CartItem)
    (hfind : p.items.find?
        (fun it => (resolve db (mkProductMap db p.items) it.product_id).isNone) =
      some bad) :
    create_order db fid p =
      .error ⟨400, "Product not found: " ++ bad.product_id⟩ ∧
    ordersWritten (create_order db fid p) = [] := by
  have herr := processItems_first_unresolvable db (mkProductMap db p.items)
    p.items bad hfind
  have hne : p.items.isEmpty = false := by
    cases hl : p.items with
    | nil => rw [hl] at hfind; cases hfind
    | cons a t => rfl
  have he : create_order db fid p =
      .error ⟨400, "Product not found: " ++ bad.product_id⟩ := by
    unfold create_order
    rw [if_neg (by simp [hne]), herr]
  exact ⟨he, by rw [he]; rfl⟩

/-- C5 witness: a valid-but-absent product id against an empty store. -/
theorem create_order_unresolvable_product_rejected_witness :
    create_order (some []) "ord5" reqC5 =
      .error ⟨400, "Product not found: deadbeefdeadbeefdeadbeef"⟩ ∧
    ordersWritten (create_order (some []) "ord5" reqC5) = [] :=
  create_order_unresolvable_product_rejected (some []) "ord5" reqC5
    ⟨"deadbeefdeadbeefdeadbeef", 1⟩ (by decide)

/-- C6: contrary to the spec's "lenient fallback", when the store is
unreachable (`db = none`) every non-empty checkout fails with 400
"Product not found" on its first line — the success-with-null-order-id
return is unreachable — and nothing is persisted. -/
theorem create_order_unreachable_store_fails_product_not_found
    (fid : String) (it : CartItem) (rest : List CartItem)
    (cust : CustomerInfo) (notes : Option String) :
    create_order none fid ⟨it :: rest, cust, notes⟩ =
      .error ⟨400, "Product not found: " ++ it.product_id⟩ ∧
    ordersWritten (create_order none fid ⟨it :: rest, cust, notes⟩) = [] := by
  have hres : resolve none (mkProductMap none (it :: rest)) it.product_id = none := by
    simp [resolve, mkProductMap, dictGet]
  have hpi : processItems none (mkProductMap none (it :: rest)) (it :: rest) =
      .error ⟨400, "Product not found: " ++ it.product_id⟩ := by
    simp [processItems, hres]
  have he : create_order none fid ⟨it :: rest, cust, notes⟩ =
      .error ⟨400, "Product not found: " ++ it.product_id⟩ := by
    unfold create_order
    rw [if_neg (by simp), hpi]
  exact ⟨he, by rw [he]; rfl⟩

/-- C7: `require_admin` yields 401 "Missing token" with no header or a
non-bearer header, 403 "Invalid token" with a bearer header whose token
differs from the configured one, and passes with the configured token. -/
theorem require_admin_auth_cases (tok s t u : String)
    (hs : pyStartsWith s "Bearer " = false)
    (ht : pyStartsWith t "Bearer " = true)
    (htw : splitAfterFirstSpace t ≠ tok)
    (hu : pyStartsWith u "Bearer " = true)
    (hur : splitAfterFirstSpace u = tok) :
    require_admin tok none = .error ⟨401, "Missing token"⟩ ∧
    require_admin tok (some s) = .error ⟨401, "Missing token"⟩ ∧
    require_admin tok (some t) = .error ⟨403, "Invalid token"⟩ ∧
    require_admin tok (some u) = .ok true := by
  refine ⟨rfl, ?_, ?_, ?_⟩
  · simp [require_admin, hs]
  · have htne : t ≠ "" := by
      intro e; rw [e] at ht; exact absurd ht (by decide)
    simp [require_admin, ht, htne, htw]
  · have hune : u ≠ "" := by
      intro e; rw [e] at hu; exact absurd hu (by decide)
    simp [require_admin, hu, hune, hur]

/-- C7 witness: the three auth outcomes at the default configured token. -/
theorem require_admin_auth_cases_witness :
    require_admin "forest-admin-token-001" none = .error ⟨401, "Missing token"⟩ ∧
    require_admin "forest-admin-token-001" (some "Token abc") =
      .error ⟨401, "Missing token"⟩ ∧
    require_admin "forest-admin-token-001" (some "Bearer wrong") =
      .error ⟨403, "Invalid token"⟩ ∧
    require_admin "forest-admin-token-001"
      (some "Bearer forest-admin-token-001") = .ok true :=
  require_admin_auth_cases "forest-admin-token-001" "Token abc" "Bearer wrong"
    "Bearer forest-admin-token-001" (by decide) (by decide) (by decide)
    (by decide) (by decide)

/-- C8: a partial content update overwrites exactly the supplied fields
(`(k, v)` a supplied pair), leaves every other field (`k2`) at its prior
value, returns the merged record, and fails 404 when no content record
exists. -/
theorem update_content_partial_merge
    (p : UpdateContentRequest) (doc d : Doc) (k k2 : String) (v : CVal)
    (h : update_content (some (some doc)) p = .ok d)
    (hk : (k, v) ∈ p.dumpExcludeNone)
    (hk2 : k2 ∉ p.dumpExcludeNone.map Prod.fst) :
    lookupField d k = some v ∧
    lookupField d k2 = lookupField doc k2 ∧
    update_content (some none) p = .error ⟨404, "Content not found"⟩ := by
  have hd : d = applySet doc p.dumpExcludeNone := by
    unfold update_content at h
    injection h with h
    exact h.symm
  subst hd
  exact ⟨lookupField_applySet_of_mem _ _ _ _ (dump_keys_nodup p) hk,
         lookupField_applySet_of_not_mem _ _ _ hk2, rfl⟩

/-- C8 witness: updating only `hero_title` on a concrete content record
keeps `shop_title` intact. -/
theorem update_content_partial_merge_witness :
    lookupField mergedC8 "hero_title" = some (.s "New Headline") ∧
    lookupField mergedC8 "shop_title" = lookupField docC8 "shop_title" ∧
    update_content (some none) patchC8 = .error ⟨404, "Content not found"⟩ :=
  update_content_partial_merge patchC8 docC8 mergedC8 "hero_title" "shop_title"
    (.s "New Headline") (by decide) (by decide) (by decide)

/-- C9: catalog update/delete (product and category) fail 400 "Invalid
... id" on a syntactically invalid identifier (`bad`) and 404 "... not
found" on a valid identifier (`missing`) matching no stored document. -/
theorem catalog_update_delete_invalid_and_missing_id
    (store : Store) (bad missing moid : String) (pp : ProductIn) (cp : CategoryIn)
    (hbad : isValidObjectId bad = false)
    (hmiss : objectId? missing = some moid)
    (hnone : findById store moid = none) :
    update_product (some store) bad pp = .error ⟨400, "Invalid product id"⟩ ∧
    delete_product (some store) bad = .error ⟨400, "Invalid product id"⟩ ∧
    update_category (some store) bad cp = .error ⟨400, "Invalid category id"⟩ ∧
    delete_category (some store) bad = .error ⟨400, "Invalid category id"⟩ ∧
    update_product (some store) missing pp = .error ⟨404, "Product not found"⟩ ∧
    delete_product (some store) missing = .error ⟨404, "Product not found"⟩ ∧
    update_category (some store) missing cp = .error ⟨404, "Category not found"⟩ ∧
    delete_category (some store) missing = .error ⟨404, "Category not found"⟩ := by
  have hbado : objectId? bad = none := by simp [objectId?, hbad]
  have hupd : findById (updateById store moid pp.dump) moid = none := by
    rw [findById_updateById, hnone]; rfl
  have hupdc : findById (updateById store moid cp.dump) moid = none := by
    rw [findById_updateById, hnone]; rfl
  have hany : store.any (fun kv => kv.1 = moid) = false :=
    any_key_eq_false_of_findById_none store moid hnone
  refine ⟨?_, ?_, ?_, ?_, ?_, ?_, ?_, ?_⟩
  · simp [update_product, hbado]
  · simp [delete_product, hbado]
  · simp [update_category, hbado]
  · simp [delete_category, hbado]
  · simp [update_product, hmiss, hupd]
  · simp [delete_product, hmiss, hany]
  · simp [update_category, hmiss, hupdc]
  · simp [delete_category, hmiss, hany]

/-- C9 witness: a malformed id and an absent-but-valid id against an empty
store. -/
theorem catalog_update_delete_invalid_and_missing_id_witness :
    update_product (some []) "not-an-objectid" { title := "T", price := 1 } =
      .error ⟨400, "Invalid product id"⟩ ∧
    delete_product (some []) "not-an-objectid" = .error ⟨400, "Invalid product id"⟩ ∧
    update_category (some []) "not-an-objectid" { name := "N", slug := "n" } =
      .error ⟨400, "Invalid category id"⟩ ∧
    delete_category (some []) "not-an-objectid" =
      .error ⟨400, "Invalid category id"⟩ ∧
    update_product (some []) "abcdefabcdefabcdefabcdef" { title := "T", price := 1 } =
      .error ⟨404, "Product not found"⟩ ∧
    delete_product (some []) "abcdefabcdefabcdefabcdef" =
      .error ⟨404, "Product not found"⟩ ∧
    update_category (some []) "abcdefabcdefabcdefabcdef" { name := "N", slug := "n" } =
      .error ⟨404, "Category not found"⟩ ∧
    delete_category (some []) "abcdefabcdefabcdefabcdef" =
      .error ⟨404, "Category not found"⟩ :=
  catalog_update_delete_invalid_and_missing_id [] "not-an-objectid"
    "abcdefabcdefabcdefabcdef" "abcdefabcdefabcdefabcdef"
    { title := "T", price := 1 } { name := "N", slug := "n" }
    (by decide) (by decide) (by decide)

/-- C10: a cart line resolving to a product document without a `price`
field is priced at 0: the stored line carries price 0 and line_total 0.00,
and the running subtotal is unchanged — the checkout does not fail. -/
theorem processItems_missing_price_defaults_zero
    (db : ProductDB) (pmap : List (String × Product)) (it : CartItem)
    (rest : List CartItem) (prod : Product)
    (hres : resolve db pmap it.product_id = some prod)
    (hnp : prod.price = none) :
    processItems db pmap (it :: rest) =
      (processItems db pmap rest).map
        (fun pr => (⟨prod.id, prod.title, 0, it.quantity, 0⟩ :: pr.1, pr.2)) := by
  cases hrec : processItems db pmap rest with
  | error e =>
    simp only [processItems, hres, hnp, hrec, Except.map]
  | ok pr =>
    obtain ⟨ls, s⟩ := pr
    simp only [processItems, hres, hnp, hrec, Except.map]
    simp [round2_zero]

/-- C10 witness: a single line referencing the price-less product. -/
theorem processItems_missing_price_defaults_zero_witness :
    processItems (some [productN]) [] [itemN] =
      (processItems (some [productN]) [] []).map
        (fun pr => (⟨productN.id, productN.title, 0, itemN.quantity, 0⟩ :: pr.1, pr.2)) :=
  processItems_missing_price_defaults_zero (some [productN]) [] itemN [] productN
    (by decide) (by decide)

end ForestAPI
